/-
  Verification of the essay-grading pipeline in `essay_grader.py`
  (EnglishEssayAgent repository).

  Shallow embedding conventions:
  * Python `str` values are modelled as `List Char` (one entry per code
    point, matching Python's `len`/indexing semantics).
  * Python `int` is `ℤ`; counts are `ℕ` cast to `ℤ` where the source
    stores them in dicts.
  * Python `float` quantities (lexical diversity, the 0.98 dampening
    constant) are modelled as exact rationals `ℚ`; `int(x)` on a float is
    truncation toward zero, modelled by `pyTrunc`.  The claims under
    study are about exact arithmetic, and in the score range exercised by
    the program the double-precision evaluation agrees with the exact
    rational one.
  * Python's `\d` is modelled as the ASCII digits (the labels and scores
    produced by the template only use ASCII digits); `str.lower` is
    modelled per-character.  `round(x, 3)` display rounding of the
    lexical diversity is not modelled: the reconciler claims quantify
    over the diversity value directly.
  * Exceptions are modelled with `Except`; the adapters under study
    catch every exception, so their models are total functions.
-/
import Mathlib

namespace EssayAgent

/-! ### Python string primitives -/

/-- Whitespace set of Python `str.strip` (ASCII part). -/
def pyIsSpace (c : Char) : Bool :=
  c = ' ' || c = '\t' || c = '\n' || c = '\r' || c = Char.ofNat 11 || c = Char.ofNat 12

/-- Python `str.strip()`: drop whitespace from both ends. -/
def pyStrip (s : List Char) : List Char :=
  ((s.dropWhile pyIsSpace).reverse.dropWhile pyIsSpace).reverse

/-- Python `str.split('\n')`: split at every newline, keeping empty pieces. -/
def splitNl : List Char → List (List Char)
  | [] => [[]]
  | c :: cs =>
    if c = '\n' then [] :: splitNl cs
    else
      match splitNl cs with
      | [] => [[c]]
      | l :: ls => (c :: l) :: ls

/-- Dropping a whitespace-style run never lengthens a list. -/
theorem dropWhile_length_le (p : Char → Bool) (l : List Char) :
    (l.dropWhile p).length ≤ l.length := by
  induction l with
  | nil => simp [List.dropWhile]
  | cons c cs ih =>
    rw [List.dropWhile]
    cases p c
    · simp
    · simp; omega

/-- Worker for `pySplitWs`; `cur` is the current token accumulated in
reverse order. -/
def pySplitWsAux (cur : List Char) : List Char → List (List Char)
  | [] => if cur = [] then [] else [cur.reverse]
  | c :: cs =>
    if pyIsSpace c then
      if cur = [] then pySplitWsAux [] cs else cur.reverse :: pySplitWsAux [] cs
    else pySplitWsAux (c :: cur) cs

/-- Python `str.split()` (no argument): split on runs of whitespace,
producing no empty tokens. -/
def pySplitWs (s : List Char) : List (List Char) := pySplitWsAux [] s

/-- Python `str.startswith(pat)`. -/
def startswith : List Char → List Char → Bool
  | [], _ => true
  | _ :: _, [] => false
  | p :: ps, c :: cs => if p = c then startswith ps cs else false

/-- Python `str.startswith((pat1, pat2, ...))`. -/
def startswithAny (pats : List (List Char)) (s : List Char) : Bool :=
  pats.any (fun p => startswith p s)

/-- Fuel-indexed worker for `replaceAll` (each step consumes at least one
character, so fuel `s.length` always suffices). -/
def replaceAllFuel (pat : List Char) : ℕ → List Char → List Char
  | _, [] => []
  | 0, s => s
  | fuel + 1, c :: cs =>
    if pat ≠ [] ∧ startswith pat (c :: cs) = true then
      replaceAllFuel pat fuel (cs.drop (pat.length - 1))
    else
      c :: replaceAllFuel pat fuel cs

/-- Python `str.replace(pat, "")` for a non-empty pattern: delete every
(non-overlapping, left-to-right) occurrence of `pat`. -/
def replaceAll (pat s : List Char) : List Char := replaceAllFuel pat s.length s

/-- Numeric value of a list of ASCII digits (how Python's `int` reads the
regex capture group). -/
def strToNat (ds : List Char) : ℕ :=
  ds.foldl (fun n c => 10 * n + (c.toNat - 48)) 0

/-- Worker for `searchNumDenom`; `run` holds the digit run currently
being scanned, in reverse order.  The denominator patterns all start
with a non-digit (`'/'`), so the check fires exactly at run boundaries. -/
def searchNumDenomAux (denom : List Char) (run : List Char) : List Char → Option ℕ
  | [] => none
  | c :: cs =>
    if c.isDigit then searchNumDenomAux denom (c :: run) cs
    else if run ≠ [] ∧ startswith denom (c :: cs) = true then
      some (strToNat run.reverse)
    else searchNumDenomAux denom [] cs

/-- Model of `re.search(r'(\d+)/<denom>', line)`: find the leftmost maximal
digit run immediately followed by `denom` and return its value.  (A match
starting strictly inside a digit run ends at the same place, so whole runs
can be skipped when the denominator check fails.) -/
def searchNumDenom (denom line : List Char) : Option ℕ :=
  searchNumDenomAux denom [] line

/-- Python `" ".join(parts)`. -/
def joinSpace : List (List Char) → List Char
  | [] => []
  | [x] => x
  | x :: xs => x ++ ' ' :: joinSpace xs

/-! ### ResponseParser (`_parse_llm_response`) -/

/-- Result dictionary built by `_parse_llm_response`. -/
structure RubricResult where
  overall_score : ℤ
  grammar_score : ℤ
  vocabulary_score : ℤ
  content_score : ℤ
  overall_feedback : List Char
  strengths : List (List Char)
  weaknesses : List (List Char)
  suggestions : List (List Char)
deriving DecidableEq

/-- The three bullet-list sections tracked by `current_section`. -/
inductive Sec where
  | strengths
  | weaknesses
  | suggestions
deriving DecidableEq

/-- Parser state: the partially filled result plus `current_section`. -/
structure ParseState where
  result : RubricResult
  current : Option Sec
deriving DecidableEq

/-- Initial (fully defaulted) result dictionary. -/
def initResult : RubricResult := ⟨0, 0, 0, 0, [], [], [], []⟩

/-- Initial parser state. -/
def initState : ParseState := ⟨initResult, none⟩

def lbl_overall : List Char := "总体评分:".data
def lbl_grammar : List Char := "语法得分:".data
def lbl_vocab : List Char := "词汇得分:".data
def lbl_content : List Char := "内容得分:".data
def lbl_feedback : List Char := "总体评价:".data
def lbl_strengths : List Char := "1. 优点:".data
def lbl_weaknesses : List Char := "2. 需要改进的地方:".data
def lbl_suggestions : List Char := "3. 具体建议:".data

/-- The tuple used by the continuation/reset checks:
`("1.", "2.", "3.", "总体", "语法", "词汇", "内容")`. -/
def resetTuple : List (List Char) :=
  ["1.".data, "2.".data, "3.".data, "总体".data, "语法".data, "词汇".data, "内容".data]

/-- All eight labels the parser recognizes explicitly. -/
def recognizedLabels : List (List Char) :=
  [lbl_overall, lbl_grammar, lbl_vocab, lbl_content,
   lbl_feedback, lbl_strengths, lbl_weaknesses, lbl_suggestions]

/-- Model of `result["<sec>"].append(line)`. -/
def appendEntry (r : RubricResult) (sec : Sec) (line : List Char) : RubricResult :=
  match sec with
  | .strengths => { r with strengths := r.strengths ++ [line] }
  | .weaknesses => { r with weaknesses := r.weaknesses ++ [line] }
  | .suggestions => { r with suggestions := r.suggestions ++ [line] }

/-- Section-start branch: `current_section = <sec>`; the text after the
label (stripped) becomes the first entry when non-empty. -/
def sectionStart (st : ParseState) (sec : Sec) (lbl line : List Char) : ParseState :=
  let content := pyStrip (replaceAll lbl line)
  ⟨if content = [] then st.result else appendEntry st.result sec content, some sec⟩

/-- The if/elif chain of `_parse_llm_response` applied to one
already-stripped line. -/
def processStripped (st : ParseState) (line : List Char) : ParseState :=
  if startswith lbl_overall line then
    match searchNumDenom "/100".data line with
    | some n => ⟨{ st.result with overall_score := (n : ℤ) }, st.current⟩
    | none => st
  else if startswith lbl_grammar line then
    match searchNumDenom "/30".data line with
    | some n => ⟨{ st.result with grammar_score := (n : ℤ) }, st.current⟩
    | none => st
  else if startswith lbl_vocab line then
    match searchNumDenom "/30".data line with
    | some n => ⟨{ st.result with vocabulary_score := (n : ℤ) }, st.current⟩
    | none => st
  else if startswith lbl_content line then
    match searchNumDenom "/40".data line with
    | some n => ⟨{ st.result with content_score := (n : ℤ) }, st.current⟩
    | none => st
  else if startswith lbl_feedback line then
    ⟨{ st.result with overall_feedback := pyStrip (replaceAll lbl_feedback line) }, st.current⟩
  else if startswith lbl_strengths line then
    sectionStart st .strengths lbl_strengths line
  else if startswith lbl_weaknesses line then
    sectionStart st .weaknesses lbl_weaknesses line
  else if startswith lbl_suggestions line then
    sectionStart st .suggestions lbl_suggestions line
  else if st.current.isSome && !line.isEmpty && !startswithAny resetTuple line then
    match st.current with
    | some sec => ⟨appendEntry st.result sec line, st.current⟩
    | none => st
  else if startswithAny resetTuple line then
    ⟨st.result, none⟩
  else st

/-- One iteration of the `for line in lines` loop of `_parse_llm_response`:
the line is stripped first, then run through the if/elif chain. -/
def processLine (st : ParseState) (rawLine : List Char) : ParseState :=
  processStripped st (pyStrip rawLine)

/-- Model of `_parse_llm_response`: strip the response, split into lines, run the
per-line state machine.  The Python body is wrapped in try/except; none of
the modelled operations can fail, and the model is a total function,
matching the never-raises contract. -/
def parse_llm_response (response : List Char) : RubricResult :=
  ((splitNl (pyStrip response)).foldl processLine initState).result

/-! ### GrammarChecker (`check_grammar`, dict mode) -/

/-- A match object returned by the external `language_tool_python` service. -/
structure LTMatch where
  message : List Char
  replacements : List (List Char)
  context : List Char
  offset : ℕ
  errorLength : ℕ
deriving DecidableEq

/-- Structured error record built from a match. -/
structure GrammarError where
  error : List Char
  suggestion : List Char
  context : List Char
  offset : ℕ
  length : ℕ
deriving DecidableEq

/-- Dict returned by `check_grammar(text, return_dict=True)`. -/
structure GrammarReport where
  errors : List GrammarError
  error_count : ℤ
  message : List Char
deriving DecidableEq

/-- Conversion of one match into an error record (first replacement if
any, else the empty string). -/
def matchToError (m : LTMatch) : GrammarError :=
  ⟨m.message, (match m.replacements with | [] => [] | r :: _ => r),
   m.context, m.offset, m.errorLength⟩

/-- Model of `check_grammar(text, return_dict=True)`.  The underlying tool is
modelled as `Option` of a fallible check function: `none` when
`language_tool_python` is absent or failed to initialize, and a call
result of `Except.error e` when `self.grammar_tool.check` raises an
exception whose text is `e`.  Both failure modes are absorbed, matching
the source's guard and try/except. -/
def check_grammar (tool : Option (List Char → Except (List Char) (List LTMatch)))
    (text : List Char) : GrammarReport :=
  match tool with
  | none => ⟨[], 0, "语法检查工具未启用".data⟩
  | some checkFn =>
    match checkFn text with
    | .error e => ⟨[], 0, "语法检查失败: ".data ++ e⟩
    | .ok ms =>
      if ms.isEmpty then ⟨[], 0, "未发现语法错误".data⟩
      else ⟨(ms.take 10).map matchToError, (ms.length : ℤ),
            "发现 ".data ++ (toString ms.length).data ++ " 个语法错误".data⟩

/-! ### LexicalAnalyzer (`analyze_vocabulary`, dict mode) -/

/-- Dict returned by `analyze_vocabulary(text, return_dict=True)`.
`lexical_diversity` and `advanced_ratio` are kept as exact rationals
(the source additionally rounds them to three decimals for display). -/
structure VocabReport where
  word_count : ℕ
  unique_words : ℕ
  lexical_diversity : ℚ
  advanced_ratio : ℚ
  common_words : List (List Char × ℕ)
  feedback : List Char
deriving DecidableEq

/-- The fixed closed set of "basic" words. -/
def basic_words : List (List Char) :=
  ["i", "you", "he", "she", "it", "we", "they",
   "is", "am", "are", "was", "were", "be", "been",
   "have", "has", "had", "do", "does", "did",
   "a", "an", "the", "and", "but", "or", "in",
   "on", "at", "to", "for", "of", "with", "by"].map String.data

/-- Model of `[word.lower() for word in text.split() if word.strip()]`. -/
def pyWords (text : List Char) : List (List Char) :=
  ((pySplitWs text).filter (fun w => !(pyStrip w).isEmpty)).map (List.map Char.toLower)

/-- Stable descending insertion by count (models the stable sort behind
`Counter.most_common`: dict order is first occurrence, ties keep it). -/
def insertByCount (p : List Char × ℕ) : List (List Char × ℕ) → List (List Char × ℕ)
  | [] => [p]
  | q :: qs => if q.2 < p.2 then p :: q :: qs else q :: insertByCount p qs

/-- Model of `Counter(words).most_common(10)`. -/
def mostCommon (words : List (List Char)) : List (List Char × ℕ) :=
  (((words.eraseDups).map (fun w => (w, words.count w))).foldl
    (fun acc p => insertByCount p acc) []).take 10

/-- Model of `analyze_vocabulary(text, return_dict=True)`.  (In the empty-text
branch the source dict omits the `advanced_ratio`/`common_words` keys;
they are modelled as `0`/`[]`.) -/
def analyze_vocabulary (text : List Char) : VocabReport :=
  let words := pyWords text
  if words.isEmpty then ⟨0, 0, 0, 0, [], "文本为空".data⟩
  else
    let word_count := words.length
    let unique_count := words.eraseDups.length
    let lexical_diversity : ℚ := mkRat unique_count word_count
    let advanced_count := (words.eraseDups.filter (fun w => !basic_words.contains w)).length
    let advanced_ratio : ℚ :=
      if unique_count > 0 then mkRat advanced_count unique_count else 0
    let feedback_parts :=
      (if word_count < 30 then ["作文较短，建议扩展内容。".data]
       else if word_count > 200 then ["作文内容丰富，长度适中。".data]
       else ["作文长度合适。".data])
      ++ (if lexical_diversity < mkRat 4 10 then ["词汇重复较多，建议使用更多不同的词汇。".data]
          else if lexical_diversity > mkRat 7 10 then ["词汇多样性很好。".data]
          else ["词汇多样性一般，可以继续提高。".data])
      ++ (if advanced_ratio < mkRat 1 10 then ["可以尝试使用更多高级词汇。".data]
          else if advanced_ratio > mkRat 3 10 then ["高级词汇使用良好。".data]
          else [])
    ⟨word_count, unique_count, lexical_diversity, advanced_ratio,
     (mostCommon words).take 5, joinSpace feedback_parts⟩

/-! ### ScoreReconciler (`_calculate_final_scores`) -/

/-- The four reconciled scores. -/
structure FinalScores where
  overall : ℤ
  grammar : ℤ
  vocabulary : ℤ
  content : ℤ
deriving DecidableEq

/-- Python `int(q)` on a float value: truncation toward zero, modelled on
exact rationals (floor for nonnegative values, ceiling for negative ones). -/
def pyTrunc (q : ℚ) : ℤ := if 0 ≤ q then q.floor else q.ceil

/-- Model of `_calculate_final_scores`: grammar penalty by error-count thresholds,
vocabulary adjustment by lexical diversity, then
`overall = int((grammar + vocabulary + content) * 0.98)` with the float
constant `0.98` modelled as the exact rational `49/50`. -/
def calculate_final_scores (llm_result : RubricResult)
    (grammar_results : GrammarReport) (vocabulary_results : VocabReport) : FinalScores :=
  let grammar0 := llm_result.grammar_score
  let vocabulary0 := llm_result.vocabulary_score
  let content := llm_result.content_score
  let cnt := grammar_results.error_count
  let grammar :=
    if cnt > 10 then max 0 (grammar0 - 8)
    else if cnt > 5 then max 0 (grammar0 - 5)
    else if cnt > 2 then max 0 (grammar0 - 3)
    else grammar0
  let d := vocabulary_results.lexical_diversity
  let vocabulary :=
    if d < mkRat 3 10 then max 0 (vocabulary0 - 5)
    else if d > mkRat 6 10 then min 30 (vocabulary0 + 3)
    else vocabulary0
  let overall := pyTrunc (mkRat (49 * (grammar + vocabulary + content)) 50)
  ⟨overall, grammar, vocabulary, content⟩

/-! ### GradingPipeline (`grade_essay`) -/

/-- Final report dictionary.  The empty-essay result omits the `essay`,
`prompt_title` and `vocabulary_feedback` keys; those are `Option`s. -/
structure GradeReport where
  essay : Option (List Char)
  prompt_title : Option (List Char)
  overall_score : ℤ
  grammar_score : ℤ
  vocabulary_score : ℤ
  content_score : ℤ
  overall_feedback : List Char
  grammar_errors : List GrammarError
  vocabulary_feedback : Option (List Char)
  suggestions : List (List Char)
  strengths : List (List Char)
  weaknesses : List (List Char)
  word_count : ℕ
  character_count : ℕ
deriving DecidableEq

/-- Model of `_get_empty_essay_result`. -/
def get_empty_essay_result : GradeReport :=
  ⟨none, none, 0, 0, 0, 0,
   "作文内容过短，请认真写作。".data,
   [], none,
   ["请写出至少20个单词的作文。".data],
   [],
   ["内容过短".data],
   0, 0⟩

/-- Model of `_get_default_grading_result` (substituted when the completion
service call raises). -/
def get_default_grading_result : RubricResult :=
  ⟨60, 20, 20, 20,
   "批改系统暂时无法提供详细反馈。".data,
   [], [],
   ["请检查基本语法错误".data, "尝试使用更多样的词汇".data, "确保内容紧扣题目要求".data]⟩

/-- Model of `grade_essay(essay, prompt_info)`.  The three collaborators (LLM
rubric judging + parsing, grammar check, vocabulary analysis) are passed
as explicit function parameters; the fast path returns before any of
them is applied, so its result is independent of them. -/
def grade_essay (essay : List Char) (title : List Char)
    (llm : List Char → RubricResult)
    (grammarCheck : List Char → GrammarReport)
    (vocabAnalyze : List Char → VocabReport) : GradeReport :=
  if essay = [] ∨ (pyStrip essay).length < 10 then
    get_empty_essay_result
  else
    let llm_result := llm essay
    let grammar_results := grammarCheck essay
    let vocabulary_results := vocabAnalyze essay
    let final_scores := calculate_final_scores llm_result grammar_results vocabulary_results
    ⟨some essay, some title,
     final_scores.overall, final_scores.grammar, final_scores.vocabulary, final_scores.content,
     llm_result.overall_feedback,
     grammar_results.errors,
     some vocabulary_results.feedback,
     llm_result.suggestions, llm_result.strengths, llm_result.weaknesses,
     (pySplitWs essay).length, essay.length⟩

/-! ### Helper lemmas -/

/-- Truncation toward zero agrees with the floor on nonnegative values. -/
theorem pyTrunc_eq_floor (q : ℚ) (h : 0 ≤ q) : pyTrunc q = ⌊q⌋ := by
  rw [pyTrunc, if_pos h, Rat.floor_def]
  exact Rat.floor_def' q

/-- The kernel-computable constant `mkRat 3 10` is the rational 3/10. -/
theorem mkRat_3_10 : (mkRat 3 10 : ℚ) = 3/10 := by
  rw [Rat.mkRat_eq_div]; norm_num

/-- The kernel-computable constant `mkRat 6 10` is the rational 6/10. -/
theorem mkRat_6_10 : (mkRat 6 10 : ℚ) = 6/10 := by
  rw [Rat.mkRat_eq_div]; norm_num

/-- The kernel-computable constant `mkRat 4 10` is the rational 4/10. -/
theorem mkRat_4_10 : (mkRat 4 10 : ℚ) = 4/10 := by
  rw [Rat.mkRat_eq_div]; norm_num

/-- The kernel-computable constant `mkRat 7 10` is the rational 7/10. -/
theorem mkRat_7_10 : (mkRat 7 10 : ℚ) = 7/10 := by
  rw [Rat.mkRat_eq_div]; norm_num

/-- The kernel-computable constant `mkRat 1 10` is the rational 1/10. -/
theorem mkRat_1_10 : (mkRat 1 10 : ℚ) = 1/10 := by
  rw [Rat.mkRat_eq_div]; norm_num

/-- The value `mkRat (49 * s) 50` is exactly `s * 0.98`. -/
theorem mkRat_dampened (s : ℤ) : (mkRat (49 * s) 50 : ℚ) = (s : ℚ) * (49/50) := by
  rw [Rat.mkRat_eq_div]; push_cast; ring

/-- The grammar component of the reconciler, unfolded. -/
theorem calc_grammar_eq (llm : RubricResult) (gr : GrammarReport) (vr : VocabReport) :
    (calculate_final_scores llm gr vr).grammar =
      (if gr.error_count > 10 then max 0 (llm.grammar_score - 8)
       else if gr.error_count > 5 then max 0 (llm.grammar_score - 5)
       else if gr.error_count > 2 then max 0 (llm.grammar_score - 3)
       else llm.grammar_score) := rfl

/-- The vocabulary component of the reconciler, unfolded. -/
theorem calc_vocab_eq (llm : RubricResult) (gr : GrammarReport) (vr : VocabReport) :
    (calculate_final_scores llm gr vr).vocabulary =
      (if vr.lexical_diversity < 3/10 then max 0 (llm.vocabulary_score - 5)
       else if vr.lexical_diversity > 6/10 then min 30 (llm.vocabulary_score + 3)
       else llm.vocabulary_score) := by
  show (if vr.lexical_diversity < mkRat 3 10 then max 0 (llm.vocabulary_score - 5)
        else if vr.lexical_diversity > mkRat 6 10 then min 30 (llm.vocabulary_score + 3)
        else llm.vocabulary_score) = _
  rw [mkRat_3_10, mkRat_6_10]

/-- The content component of the reconciler passes through. -/
theorem calc_content_eq (llm : RubricResult) (gr : GrammarReport) (vr : VocabReport) :
    (calculate_final_scores llm gr vr).content = llm.content_score := rfl

/-- The overall component is the truncated dampened sum of the other
three reconciled components. -/
theorem calc_overall_eq (llm : RubricResult) (gr : GrammarReport) (vr : VocabReport) :
    (calculate_final_scores llm gr vr).overall =
      pyTrunc (mkRat (49 * ((calculate_final_scores llm gr vr).grammar +
                            (calculate_final_scores llm gr vr).vocabulary +
                            (calculate_final_scores llm gr vr).content)) 50) := rfl

/-- The reconciled grammar score is nonnegative when the rubric one is. -/
theorem calc_grammar_nonneg (llm : RubricResult) (gr : GrammarReport) (vr : VocabReport)
    (h : 0 ≤ llm.grammar_score) : 0 ≤ (calculate_final_scores llm gr vr).grammar := by
  rw [calc_grammar_eq]
  split_ifs <;> omega

/-! ### Claim theorems -/

/-- C1: for reconciled scores coming from nonnegative rubric scores, the
final overall score equals `floor((grammar + vocabulary + content) * 0.98)`
in exact arithmetic, for every value of the parsed `overall_score` `o`
(which the reconciler ignores).  The nonnegativity hypotheses hold for
every rubric result the program actually produces (see
`parse_scores_nonneg` and `get_default_grading_result`). -/
theorem overall_score_dampened_floor (o g v c ec : ℤ) (d : ℚ)
    (hg : 0 ≤ g) (hv : 0 ≤ v) (hc : 0 ≤ c) :
    ∀ r : FinalScores,
      r = calculate_final_scores ⟨o, g, v, c, [], [], [], []⟩ ⟨[], ec, []⟩ ⟨0, 0, d, 0, [], []⟩ →
      r.overall = ⌊((r.grammar + r.vocabulary + r.content : ℤ) : ℚ) * (49 / 50)⌋ := by
  intro r hr
  have hG : 0 ≤ r.grammar := hr ▸ calc_grammar_nonneg _ _ _ hg
  have hV : 0 ≤ r.vocabulary := by
    rw [hr, calc_vocab_eq]
    show 0 ≤ (if d < 3/10 then max 0 (v - 5) else if d > 6/10 then min 30 (v + 3) else v)
    split_ifs <;> omega
  have hC : 0 ≤ r.content := by rw [hr, calc_content_eq]; exact hc
  have hsum : (0 : ℚ) ≤ ((r.grammar + r.vocabulary + r.content : ℤ) : ℚ) * (49 / 50) := by
    apply mul_nonneg
    · exact_mod_cast by omega
    · norm_num
  calc r.overall
      = pyTrunc (mkRat (49 * (r.grammar + r.vocabulary + r.content)) 50) := by
        rw [hr]; exact calc_overall_eq _ _ _
    _ = ⌊((r.grammar + r.vocabulary + r.content : ℤ) : ℚ) * (49 / 50)⌋ := by
        rw [mkRat_dampened]; exact pyTrunc_eq_floor _ hsum

/-- Witness for C1, at the end-to-end scenario of the spec: rubric
scores 20/20/30 with 3 grammar errors and mid-range diversity reconcile
to 17/20/30, and the overall score is `floor(67 * 0.98) = 65`. -/
theorem overall_score_dampened_floor_witness :
    (calculate_final_scores ⟨70, 20, 20, 30, [], [], [], []⟩ ⟨[], 3, []⟩ ⟨0, 0, mkRat 1 2, 0, [], []⟩).overall
      = ⌊(((calculate_final_scores ⟨70, 20, 20, 30, [], [], [], []⟩ ⟨[], 3, []⟩ ⟨0, 0, mkRat 1 2, 0, [], []⟩).grammar
          + (calculate_final_scores ⟨70, 20, 20, 30, [], [], [], []⟩ ⟨[], 3, []⟩ ⟨0, 0, mkRat 1 2, 0, [], []⟩).vocabulary
          + (calculate_final_scores ⟨70, 20, 20, 30, [], [], [], []⟩ ⟨[], 3, []⟩ ⟨0, 0, mkRat 1 2, 0, [], []⟩).content : ℤ) : ℚ) * (49 / 50)⌋
    ∧ (calculate_final_scores ⟨70, 20, 20, 30, [], [], [], []⟩ ⟨[], 3, []⟩ ⟨0, 0, mkRat 1 2, 0, [], []⟩).overall = 65
    ∧ (calculate_final_scores ⟨70, 20, 20, 30, [], [], [], []⟩ ⟨[], 3, []⟩ ⟨0, 0, mkRat 1 2, 0, [], []⟩).grammar = 17 := by
  refine ⟨overall_score_dampened_floor 70 20 20 30 3 (mkRat 1 2)
    (by norm_num) (by norm_num) (by norm_num) _ rfl, ?_, ?_⟩ <;> decide

/-- C2: the reconciled grammar score is `max 0 (g - p)` with penalty
`p = 8` when the error count exceeds 10, else `5` when it exceeds 5,
else `3` when it exceeds 2, else `0`. -/
theorem grammar_penalty_thresholds (o g v c ec : ℤ) (d : ℚ)
    (hg : 0 ≤ g) (hec : 0 ≤ ec) :
    (calculate_final_scores ⟨o, g, v, c, [], [], [], []⟩ ⟨[], ec, []⟩ ⟨0, 0, d, 0, [], []⟩).grammar
      = max 0 (g - (if ec > 10 then 8 else if ec > 5 then 5 else if ec > 2 then 3 else 0)) := by
  rw [calc_grammar_eq]
  show (if ec > 10 then max 0 (g - 8)
        else if ec > 5 then max 0 (g - 5)
        else if ec > 2 then max 0 (g - 3) else g) = _
  split_ifs <;> omega

/-- Witness for C2: g = 30 with 11 errors gives 22; counts 0, 1, 2 leave
the score unchanged. -/
theorem grammar_penalty_thresholds_witness :
    (calculate_final_scores ⟨0, 30, 0, 0, [], [], [], []⟩ ⟨[], 11, []⟩ ⟨0, 0, mkRat 1 2, 0, [], []⟩).grammar = 22
    ∧ (calculate_final_scores ⟨0, 30, 0, 0, [], [], [], []⟩ ⟨[], 0, []⟩ ⟨0, 0, mkRat 1 2, 0, [], []⟩).grammar = 30
    ∧ (calculate_final_scores ⟨0, 30, 0, 0, [], [], [], []⟩ ⟨[], 1, []⟩ ⟨0, 0, mkRat 1 2, 0, [], []⟩).grammar = 30
    ∧ (calculate_final_scores ⟨0, 30, 0, 0, [], [], [], []⟩ ⟨[], 2, []⟩ ⟨0, 0, mkRat 1 2, 0, [], []⟩).grammar = 30 := by
  refine ⟨(grammar_penalty_thresholds 0 30 0 0 11 (mkRat 1 2) (by norm_num) (by norm_num)).trans (by decide),
    ?_, ?_, ?_⟩ <;> decide

/-- C3 counterexample: with diversity `0 < 0.3` and base vocabulary
score 3, the code yields `max 0 (3 - 5) = 0`, not `3 - 5 = -2` as the
claim states. -/
theorem vocab_adjustment_cex :
    (calculate_final_scores ⟨0, 0, 3, 0, [], [], [], []⟩ ⟨[], 0, []⟩ ⟨0, 0, 0, 0, [], []⟩).vocabulary = 0
    ∧ (calculate_final_scores ⟨0, 0, 3, 0, [], [], [], []⟩ ⟨[], 0, []⟩ ⟨0, 0, 0, 0, [], []⟩).vocabulary ≠ 3 - 5 := by
  decide

/-- C3 as amended: the reconciled vocabulary score is `max 0 (v - 5)`
(not the bare `v - 5`) when diversity is below 0.3, `min 30 (v + 3)`
when it exceeds 0.6, and `v` otherwise. -/
theorem vocab_adjustment_formula (o g v c ec : ℤ) (d : ℚ) :
    (calculate_final_scores ⟨o, g, v, c, [], [], [], []⟩ ⟨[], ec, []⟩ ⟨0, 0, d, 0, [], []⟩).vocabulary
      = (if d < 3/10 then max 0 (v - 5) else if d > 6/10 then min 30 (v + 3) else v) :=
  calc_vocab_eq _ _ _

/-- C10: the reconciled vocabulary score is never negative when the
rubric vocabulary score is nonnegative, because the low-diversity branch
floors at 0. -/
theorem vocab_score_nonneg (o g v c ec : ℤ) (d : ℚ) (hv : 0 ≤ v) :
    0 ≤ (calculate_final_scores ⟨o, g, v, c, [], [], [], []⟩ ⟨[], ec, []⟩ ⟨0, 0, d, 0, [], []⟩).vocabulary := by
  rw [calc_vocab_eq]
  show 0 ≤ (if d < 3/10 then max 0 (v - 5) else if d > 6/10 then min 30 (v + 3) else v)
  split_ifs <;> omega

/-- Witness for C10: base score 3 with diversity 0 yields 0, not -2. -/
theorem vocab_score_nonneg_witness :
    0 ≤ (3 : ℤ)
    ∧ 0 ≤ (calculate_final_scores ⟨0, 0, 3, 0, [], [], [], []⟩ ⟨[], 0, []⟩ ⟨0, 0, 0, 0, [], []⟩).vocabulary
    ∧ (calculate_final_scores ⟨0, 0, 3, 0, [], [], [], []⟩ ⟨[], 0, []⟩ ⟨0, 0, 0, 0, [], []⟩).vocabulary = 0 :=
  ⟨by norm_num, vocab_score_nonneg 0 0 3 0 0 0 (by norm_num), by decide⟩

/-- C4 counterexample: the fixed empty-essay report does NOT have an
empty suggestions list — it carries the single fixed entry
"请写出至少20个单词的作文。". -/
theorem empty_essay_suggestions_cex :
    (grade_essay [] [] (fun _ => initResult) (fun _ => ⟨[], 0, []⟩)
        (fun _ => ⟨0, 0, 0, 0, [], []⟩)).suggestions = ["请写出至少20个单词的作文。".data]
    ∧ (grade_essay [] [] (fun _ => initResult) (fun _ => ⟨[], 0, []⟩)
        (fun _ => ⟨0, 0, 0, 0, [], []⟩)).suggestions ≠ [] := by
  constructor <;> decide

/-- C4 as amended: whenever the essay's whitespace-trimmed length is
below 10 characters (including the empty essay), `grade_essay` returns
the fixed empty-essay report — all four scores 0, the fixed feedback
sentence, the single weakness "内容过短", empty strengths, and the single
fixed suggestion "请写出至少20个单词的作文。" — independently of the three
collaborator functions, none of which is invoked (the result is the same
for every choice of them). -/
theorem short_essay_fast_path (essay title : List Char)
    (llm : List Char → RubricResult) (grammarCheck : List Char → GrammarReport)
    (vocabAnalyze : List Char → VocabReport)
    (h : (pyStrip essay).length < 10) :
    grade_essay essay title llm grammarCheck vocabAnalyze = get_empty_essay_result := by
  unfold grade_essay
  rw [if_pos (Or.inr h)]

/-- Witness for C4 as amended, on a three-character essay. -/
theorem short_essay_fast_path_witness :
    (pyStrip "Hi.".data).length < 10
    ∧ grade_essay "Hi.".data "My Family".data (fun _ => initResult)
        (fun _ => ⟨[], 0, []⟩) (fun _ => ⟨0, 0, 0, 0, [], []⟩) = get_empty_essay_result :=
  ⟨by decide, short_essay_fast_path _ _ _ _ _ (by decide)⟩

/-- C8: when the grammar tool is absent (`none`), `check_grammar` returns
the degraded report with no errors, count 0 and the fixed disabled
message; when the tool's check call raises (modelled by `Except.error e`),
it returns the degraded report whose message embeds the exception text.
Both cases are ordinary return values, never propagated exceptions. -/
theorem check_grammar_degraded (text e : List Char)
    (f : List Char → Except (List Char) (List LTMatch))
    (hf : f text = Except.error e) :
    check_grammar none text = ⟨[], 0, "语法检查工具未启用".data⟩
    ∧ check_grammar (some f) text = ⟨[], 0, "语法检查失败: ".data ++ e⟩ := by
  constructor
  · rfl
  · unfold check_grammar
    dsimp only
    rw [hf]

/-- A string starting with `a ++ b` starts with `a`. -/
theorem startswith_of_append (a b s : List Char)
    (h : startswith (a ++ b) s = true) : startswith a s = true := by
  induction a generalizing s with
  | nil => rfl
  | cons p ps ih =>
    cases s with
    | nil => simp [startswith] at h
    | cons c cs =>
      rw [List.cons_append, startswith] at h
      rw [startswith]
      by_cases hpc : p = c
      · rw [if_pos hpc] at h ⊢
        exact ih cs h
      · rw [if_neg hpc] at h
        simp at h

/-- Contrapositive form: a string not starting with `a` does not start
with any extension `a ++ b`. -/
theorem startswith_false_of_head (a b s : List Char)
    (h : startswith a s = false) : startswith (a ++ b) s = false := by
  cases hs : startswith (a ++ b) s
  · rfl
  · exact absurd (startswith_of_append a b s hs) (by simp [h])

/-- Each of the eight recognized labels extends one of the seven
continuation/reset tuple entries, so a line that starts with none of the
tuple entries starts with none of the labels either. -/
theorem labels_false_of_resetTuple_false (line : List Char)
    (h : startswithAny resetTuple line = false) :
    startswith lbl_overall line = false ∧ startswith lbl_grammar line = false ∧
    startswith lbl_vocab line = false ∧ startswith lbl_content line = false ∧
    startswith lbl_feedback line = false ∧ startswith lbl_strengths line = false ∧
    startswith lbl_weaknesses line = false ∧ startswith lbl_suggestions line = false := by
  simp only [startswithAny, resetTuple, List.any_cons, List.any_nil,
    Bool.or_eq_false_iff] at h
  obtain ⟨h1, h2, h3, h4, h5, h6, h7, -⟩ := h
  refine ⟨?_, ?_, ?_, ?_, ?_, ?_, ?_, ?_⟩
  · rw [show lbl_overall = "总体".data ++ "评分:".data by decide]
    exact startswith_false_of_head _ _ _ h4
  · rw [show lbl_grammar = "语法".data ++ "得分:".data by decide]
    exact startswith_false_of_head _ _ _ h5
  · rw [show lbl_vocab = "词汇".data ++ "得分:".data by decide]
    exact startswith_false_of_head _ _ _ h6
  · rw [show lbl_content = "内容".data ++ "得分:".data by decide]
    exact startswith_false_of_head _ _ _ h7
  · rw [show lbl_feedback = "总体".data ++ "评价:".data by decide]
    exact startswith_false_of_head _ _ _ h4
  · rw [show lbl_strengths = "1.".data ++ " 优点:".data by decide]
    exact startswith_false_of_head _ _ _ h1
  · rw [show lbl_weaknesses = "2.".data ++ " 需要改进的地方:".data by decide]
    exact startswith_false_of_head _ _ _ h2
  · rw [show lbl_suggestions = "3.".data ++ " 具体建议:".data by decide]
    exact startswith_false_of_head _ _ _ h3

/-- A blank (stripped-empty) line leaves the parser state untouched. -/
theorem processStripped_blank (st : ParseState) : processStripped st [] = st := by
  have c1 : startswith lbl_overall ([] : List Char) = false := by decide
  have c2 : startswith lbl_grammar ([] : List Char) = false := by decide
  have c3 : startswith lbl_vocab ([] : List Char) = false := by decide
  have c4 : startswith lbl_content ([] : List Char) = false := by decide
  have c5 : startswith lbl_feedback ([] : List Char) = false := by decide
  have c6 : startswith lbl_strengths ([] : List Char) = false := by decide
  have c7 : startswith lbl_weaknesses ([] : List Char) = false := by decide
  have c8 : startswith lbl_suggestions ([] : List Char) = false := by decide
  have hA : startswithAny resetTuple ([] : List Char) = false := by decide
  simp [processStripped, c1, c2, c3, c4, c5, c6, c7, c8, hA]

/-- While a section is active, a non-blank line starting with none of the
seven tuple entries is appended to that section and the section stays
active. -/
theorem processStripped_append (st : ParseState) (sec : Sec) (line : List Char)
    (hc : st.current = some sec) (hne : line ≠ [])
    (hA : startswithAny resetTuple line = false) :
    processStripped st line = ⟨appendEntry st.result sec line, some sec⟩ := by
  obtain ⟨l1, l2, l3, l4, l5, l6, l7, l8⟩ := labels_false_of_resetTuple_false line hA
  have hie : line.isEmpty = false := by
    cases line with
    | nil => exact absurd rfl hne
    | cons a as => rfl
  simp [processStripped, l1, l2, l3, l4, l5, l6, l7, l8, hA, hc, hie]

/-- A line starting with a tuple entry but with none of the eight
recognized labels resets the active section and appends nothing. -/
theorem processStripped_reset (st : ParseState) (line : List Char)
    (hA : startswithAny resetTuple line = true)
    (hL : startswithAny recognizedLabels line = false) :
    processStripped st line = ⟨st.result, none⟩ := by
  simp only [startswithAny, recognizedLabels, List.any_cons, List.any_nil,
    Bool.or_eq_false_iff] at hL
  obtain ⟨l1, l2, l3, l4, l5, l6, l7, l8, -⟩ := hL
  simp [processStripped, l1, l2, l3, l4, l5, l6, l7, l8, hA]

/-- With no active section, a line starting with none of the eight
recognized labels leaves the whole state unchanged. -/
theorem processStripped_no_label_inactive (st : ParseState) (line : List Char)
    (hc : st.current = none) (hL : startswithAny recognizedLabels line = false) :
    processStripped st line = st := by
  simp only [startswithAny, recognizedLabels, List.any_cons, List.any_nil,
    Bool.or_eq_false_iff] at hL
  obtain ⟨l1, l2, l3, l4, l5, l6, l7, l8, -⟩ := hL
  obtain ⟨r, cur⟩ := st
  simp only at hc
  subst hc
  simp [processStripped, l1, l2, l3, l4, l5, l6, l7, l8]

/-- Folding label-free lines from an inactive state is the identity. -/
theorem foldl_no_label (lines : List (List Char)) (st : ParseState)
    (hc : st.current = none)
    (h : ∀ l ∈ lines, startswithAny recognizedLabels (pyStrip l) = false) :
    lines.foldl processLine st = st := by
  induction lines generalizing st with
  | nil => rfl
  | cons l ls ih =>
    rw [List.foldl_cons]
    have hstep : processLine st l = st :=
      processStripped_no_label_inactive st (pyStrip l) hc (h l (List.mem_cons_self l ls))
    rw [hstep]
    exact ih st hc (fun x hx => h x (List.mem_cons_of_mem l hx))

/-- Appending an entry never changes the overall score. -/
theorem appendEntry_overall (r : RubricResult) (sec : Sec) (l : List Char) :
    (appendEntry r sec l).overall_score = r.overall_score := by
  cases sec <;> rfl

/-- Appending an entry never changes the grammar score. -/
theorem appendEntry_grammar (r : RubricResult) (sec : Sec) (l : List Char) :
    (appendEntry r sec l).grammar_score = r.grammar_score := by
  cases sec <;> rfl

/-- Appending an entry never changes the vocabulary score. -/
theorem appendEntry_vocabulary (r : RubricResult) (sec : Sec) (l : List Char) :
    (appendEntry r sec l).vocabulary_score = r.vocabulary_score := by
  cases sec <;> rfl

/-- Appending an entry never changes the content score. -/
theorem appendEntry_content (r : RubricResult) (sec : Sec) (l : List Char) :
    (appendEntry r sec l).content_score = r.content_score := by
  cases sec <;> rfl

set_option maxHeartbeats 2000000 in
/-- One parser step preserves nonnegativity of the four scores: a score
is only ever overwritten with a regex-captured natural number. -/
theorem processStripped_scores_nonneg (st : ParseState) (line : List Char)
    (h : 0 ≤ st.result.overall_score ∧ 0 ≤ st.result.grammar_score ∧
         0 ≤ st.result.vocabulary_score ∧ 0 ≤ st.result.content_score) :
    0 ≤ (processStripped st line).result.overall_score ∧
    0 ≤ (processStripped st line).result.grammar_score ∧
    0 ≤ (processStripped st line).result.vocabulary_score ∧
    0 ≤ (processStripped st line).result.content_score := by
  obtain ⟨h1, h2, h3, h4⟩ := h
  unfold processStripped sectionStart
  repeat' split
  all_goals try dsimp only
  all_goals first
    | exact ⟨h1, h2, h3, h4⟩
    | exact ⟨Int.natCast_nonneg _, h2, h3, h4⟩
    | exact ⟨h1, Int.natCast_nonneg _, h3, h4⟩
    | exact ⟨h1, h2, Int.natCast_nonneg _, h4⟩
    | exact ⟨h1, h2, h3, Int.natCast_nonneg _⟩
    | (split_ifs <;> exact ⟨h1, h2, h3, h4⟩)
    | (refine ⟨?_, ?_, ?_, ?_⟩ <;>
        simp only [appendEntry_overall, appendEntry_grammar,
          appendEntry_vocabulary, appendEntry_content] <;>
        assumption)

/-- Folding parser steps preserves nonnegativity of the four scores. -/
theorem foldl_scores_nonneg (lines : List (List Char)) (st : ParseState)
    (h : 0 ≤ st.result.overall_score ∧ 0 ≤ st.result.grammar_score ∧
         0 ≤ st.result.vocabulary_score ∧ 0 ≤ st.result.content_score) :
    0 ≤ (lines.foldl processLine st).result.overall_score ∧
    0 ≤ (lines.foldl processLine st).result.grammar_score ∧
    0 ≤ (lines.foldl processLine st).result.vocabulary_score ∧
    0 ≤ (lines.foldl processLine st).result.content_score := by
  induction lines generalizing st with
  | nil => exact h
  | cons l ls ih =>
    rw [List.foldl_cons]
    exact ih _ (processStripped_scores_nonneg st (pyStrip l) h)

/-- C5 counterexample: the parser copies the captured number verbatim,
so the response line "语法得分: 999/30" produces a grammar score of 999,
outside the claimed range [0, 30]. -/
theorem parse_unbounded_score_cex :
    (parse_llm_response "语法得分: 999/30".data).grammar_score = 999
    ∧ ¬((parse_llm_response "语法得分: 999/30".data).grammar_score ≤ 30) := by
  constructor <;> decide

/-- C5 as amended: every score produced by the response parser is a
nonnegative integer (captured from a digit run or left at the default 0);
no upper bound is enforced. -/
theorem parse_scores_nonneg (response : List Char) :
    0 ≤ (parse_llm_response response).overall_score
    ∧ 0 ≤ (parse_llm_response response).grammar_score
    ∧ 0 ≤ (parse_llm_response response).vocabulary_score
    ∧ 0 ≤ (parse_llm_response response).content_score :=
  foldl_scores_nonneg (splitNl (pyStrip response)) initState
    ⟨le_refl 0, le_refl 0, le_refl 0, le_refl 0⟩

/-- C6 counterexample: after "1. 优点: good" activates the strengths
section, the non-empty line "2. extra" matches none of the six recognized
labels, yet it is not appended (strengths stays ["good"]) and it
deactivates the section, because the continuation check excludes any line
starting with the prefix "2.". -/
theorem section_continuation_cex :
    (processLine initState "1. 优点: good".data).current = some Sec.strengths
    ∧ startswithAny [lbl_overall, lbl_grammar, lbl_vocab, lbl_content,
        lbl_weaknesses, lbl_suggestions] (pyStrip "2. extra".data) = false
    ∧ pyStrip "2. extra".data ≠ []
    ∧ (parse_llm_response "1. 优点: good\n2. extra".data).strengths = ["good".data]
    ∧ (processLine (processLine initState "1. 优点: good".data) "2. extra".data).current = none := by
  refine ⟨by decide, by decide, by decide, by decide, by decide⟩

/-- C6 as amended: while a section is active, a stripped line is appended
to it (and the section stays active) when it is non-empty and starts with
none of the seven prefixes "1.", "2.", "3.", "总体", "语法", "词汇",
"内容"; a blank line changes nothing (it never deactivates the section);
and a line starting with one of those prefixes while matching none of
the eight recognized labels appends nothing and deactivates the section. -/
theorem section_line_behavior (st : ParseState) (sec : Sec) (raw : List Char)
    (hc : st.current = some sec) :
    (pyStrip raw = [] → processLine st raw = st)
    ∧ (pyStrip raw ≠ [] → startswithAny resetTuple (pyStrip raw) = false →
        processLine st raw = ⟨appendEntry st.result sec (pyStrip raw), some sec⟩)
    ∧ (startswithAny resetTuple (pyStrip raw) = true →
        startswithAny recognizedLabels (pyStrip raw) = false →
        processLine st raw = ⟨st.result, none⟩) := by
  refine ⟨?_, ?_, ?_⟩
  · intro h
    unfold processLine
    rw [h]
    exact processStripped_blank st
  · intro h1 h2
    exact processStripped_append st sec _ hc h1 h2
  · intro h1 h2
    exact processStripped_reset st _ h1 h2

/-- Witness for C6 as amended: a plain continuation line is appended to
the active strengths section. -/
theorem section_line_behavior_witness :
    (⟨initResult, some Sec.strengths⟩ : ParseState).current = some Sec.strengths
    ∧ processLine ⟨initResult, some Sec.strengths⟩ "still in the section".data
        = ⟨appendEntry initResult Sec.strengths (pyStrip "still in the section".data),
           some Sec.strengths⟩ :=
  ⟨rfl, (section_line_behavior ⟨initResult, some Sec.strengths⟩ Sec.strengths
    "still in the section".data rfl).2.1 (by decide) (by decide)⟩

/-- C7: an input in which no line starts with any of the eight recognized
labels parses to the fully defaulted result (all scores 0, empty feedback
and empty lists).  The parser model is a total function, matching the
never-raises contract of the source's try/except. -/
theorem parse_no_labels_default (response : List Char)
    (h : ∀ l ∈ splitNl (pyStrip response), startswithAny recognizedLabels (pyStrip l) = false) :
    parse_llm_response response = initResult := by
  unfold parse_llm_response
  rw [foldl_no_label (splitNl (pyStrip response)) initState rfl h]
  rfl

/-- Witness for C7, on completely unrelated text. -/
theorem parse_no_labels_default_witness :
    (∀ l ∈ splitNl (pyStrip "hello there\ncompletely unrelated text".data),
      startswithAny recognizedLabels (pyStrip l) = false)
    ∧ parse_llm_response "hello there\ncompletely unrelated text".data = initResult :=
  ⟨by decide, parse_no_labels_default _ (by decide)⟩

/-- Witness for C8, with a concrete always-raising check function. -/
theorem check_grammar_degraded_witness :
    (fun _ : List Char => (Except.error "boom".data : Except (List Char) (List LTMatch))) "text".data
        = Except.error "boom".data
    ∧ check_grammar none "text".data = ⟨[], 0, "语法检查工具未启用".data⟩
    ∧ check_grammar (some (fun _ => Except.error "boom".data)) "text".data
        = ⟨[], 0, "语法检查失败: ".data ++ "boom".data⟩ := by
  have h := check_grammar_degraded "text".data "boom".data
    (fun _ => Except.error "boom".data) rfl
  exact ⟨rfl, h.1, h.2⟩

/-- C9 counterexample: on a text whose advanced-word ratio is exactly
0.3 (10 unique words, 7 of them basic), the feedback contains only the
word-count sentence and the diversity sentence — no advanced-vocabulary
sentence at all — although the claim requires one whenever the ratio is
at least 0.3 (the code uses the strict comparison `> 0.3`). -/
theorem advanced_ratio_boundary_cex :
    (analyze_vocabulary "i you he she it we they aaa bbb ccc".data).advanced_ratio = 3/10
    ∧ ¬((analyze_vocabulary "i you he she it we they aaa bbb ccc".data).advanced_ratio < 1/10)
    ∧ (analyze_vocabulary "i you he she it we they aaa bbb ccc".data).feedback
        = joinSpace ["作文较短，建议扩展内容。".data, "词汇多样性很好。".data]
    ∧ (analyze_vocabulary "i you he she it we they aaa bbb ccc".data).feedback
        ≠ joinSpace ["作文较短，建议扩展内容。".data, "词汇多样性很好。".data,
                     "高级词汇使用良好。".data]
    ∧ (analyze_vocabulary "i you he she it we they aaa bbb ccc".data).feedback
        ≠ joinSpace ["作文较短，建议扩展内容。".data, "词汇多样性很好。".data,
                     "可以尝试使用更多高级词汇。".data] := by
  have hr : (analyze_vocabulary "i you he she it we they aaa bbb ccc".data).advanced_ratio
      = mkRat 3 10 := by decide
  refine ⟨?_, ?_, by decide, by decide, by decide⟩
  · rw [hr]
    exact mkRat_3_10
  · rw [hr, mkRat_3_10]
    norm_num

/-- C9 as amended: for every text with at least one token, the feedback
string is the space-joined concatenation, in fixed order, of exactly one
word-count sentence (< 30 / 30-200 / > 200), exactly one diversity
sentence (< 0.4 / 0.4-0.7 / > 0.7), and an advanced-ratio sentence when
the ratio is < 0.1 or strictly greater than 0.3 (none in between,
including at exactly 0.3).  The analyzer is a pure function, so the same
input always yields the identical string. -/
theorem vocab_feedback_assembly (text : List Char) (h : pyWords text ≠ []) :
    (analyze_vocabulary text).feedback = joinSpace (
      (if (analyze_vocabulary text).word_count < 30 then ["作文较短，建议扩展内容。".data]
       else if (analyze_vocabulary text).word_count > 200 then ["作文内容丰富，长度适中。".data]
       else ["作文长度合适。".data])
      ++ (if (analyze_vocabulary text).lexical_diversity < 4/10 then
            ["词汇重复较多，建议使用更多不同的词汇。".data]
          else if (analyze_vocabulary text).lexical_diversity > 7/10 then
            ["词汇多样性很好。".data]
          else ["词汇多样性一般，可以继续提高。".data])
      ++ (if (analyze_vocabulary text).advanced_ratio < 1/10 then
            ["可以尝试使用更多高级词汇。".data]
          else if (analyze_vocabulary text).advanced_ratio > 3/10 then
            ["高级词汇使用良好。".data]
          else [])) := by
  have hne : (pyWords text).isEmpty = false := by
    cases hp : pyWords text with
    | nil => exact absurd hp h
    | cons a as => rfl
  simp only [analyze_vocabulary, hne, Bool.false_eq_true, if_false]
  rw [mkRat_4_10, mkRat_7_10, mkRat_1_10, mkRat_3_10]

/-- Witness for C9 as amended: "hello world" gets the short sentence, the
high-diversity sentence and the advanced-vocabulary sentence. -/
theorem vocab_feedback_assembly_witness :
    pyWords "hello world".data ≠ []
    ∧ (analyze_vocabulary "hello world".data).feedback
        = joinSpace ["作文较短，建议扩展内容。".data, "词汇多样性很好。".data,
                     "高级词汇使用良好。".data] := by
  refine ⟨by decide, ?_⟩
  rw [vocab_feedback_assembly "hello world".data (by decide)]
  have hwc : (analyze_vocabulary "hello world".data).word_count = 2 := by decide
  have hld : (analyze_vocabulary "hello world".data).lexical_diversity = 1 := by
    have e : (analyze_vocabulary "hello world".data).lexical_diversity = mkRat 2 2 := by decide
    rw [e, Rat.mkRat_eq_div]
    norm_num
  have har : (analyze_vocabulary "hello world".data).advanced_ratio = 1 := by
    have e : (analyze_vocabulary "hello world".data).advanced_ratio = mkRat 2 2 := by decide
    rw [e, Rat.mkRat_eq_div]
    norm_num
  rw [hwc, hld, har]
  norm_num

end EssayAgent
